import Mathlib

/-!
Verification of the Shadertoy-style render loop (src/src/main.rs).

Shallow embedding conventions:
- Rust f64/f32 time values are modelled as rationals (ℚ); the f32 frame
  counter is modelled as ℕ (it starts at 0 and only ever has 1 added).
- The global atomics and lazily-initialized mutex cells become explicit
  values threaded through functions: the player-state cell and shader slot
  are `Option`-valued (none = never initialized).
- The per-frame closure `update_and_draw` becomes a pure step function from
  the captured loop state plus an input record (the frame timestamp, the
  values of the global flags, the snapshot results of the lock reads, and
  the external GL compile outcome) to the new loop state plus a record of
  the observable GL effects the frame emitted (program deletion, the
  fragment source handed to compile_and_link, error reports, uniform
  writes, the draw call) and the returned continue flag.
- `gl.uniform1f(frame_rate_loc, 1f32 / time_dif)` divides by an f32 that is
  exactly 0 on a sentinel frame, producing the IEEE infinity; ℚ has no
  infinity, so the written frame-rate value is modelled as `Option ℚ` with
  `none` standing for that undefined/infinite value.
-/

/-- Rust struct MouseUniform: four pixel coordinates (f32, modelled as ℚ). -/
structure MouseUniform where
  x : ℚ
  y : ℚ
  down_x : ℚ
  down_y : ℚ
deriving Repr, DecidableEq

/-- Rust struct PlayerState: each field independently optional. -/
structure PlayerState where
  mouse : Option MouseUniform := none
  paused : Option Bool := none
deriving Repr, DecidableEq

/-- Rust PlayerState::default(): both fields None. -/
def PlayerState.default : PlayerState := {}

/-- Fixed preamble prepended by prepare_shader (uniform declarations). -/
def shader_preamble : String :=
  "#version 300 es \nprecision mediump float;\n\nuniform vec3 iResolution; // image/buffer\tThe viewport resolution (z is pixel aspect ratio, usually 1.0)\nuniform float\tiTime; // image/sound/buffer\tCurrent time in seconds\nuniform float\tiTimeDelta; // image/buffer\tTime it takes to render a frame, in seconds\nuniform int\tiFrame; // image/buffer\tCurrent frame\nuniform float\tiFrameRate; // image/buffer\tNumber of frames rendered per second\nuniform vec4\tiMouse; // image/buffer\txy = current pixel coords (if LMB is down). zw = click pixel\nuniform vec4\tiDate; // image/buffer/sound\tYear, month, day, time in seconds in .xyzw\n"

/-- Fixed trailer appended by prepare_shader (varyings and the main shim). -/
def shader_trailer : String :=
  "\nin vec2 vUv;\nout vec4 frag_color;\n\nvoid main() \x7b\n    mainImage(frag_color, vUv * iResolution.xy);\n\x7d"

/-- Rust fn prepare_shader: wraps user fragment text with the fixed
preamble and main-shim trailer (the format! call in main.rs). -/
def prepare_shader (shadertoy_code : String) : String :=
  shader_preamble ++ shadertoy_code ++ shader_trailer

/-- Modelled from the spec: the built-in default shader text, loaded by
include_str from ../shaders/shader.frag, a file of this repository that is
not under src/. Its content is opaque to every claim; only its identity as
the fallback user text matters. -/
def default_frag_shader_src : String := "default-shader-frag"

/-- Modelled from the spec: the vertex shader source, loaded by include_str
from ../shaders/shader.vert, a file of this repository not under src/.
Opaque content. -/
def vertex_shader_src : String := "default-shader-vert"

/-- Rust fn get_shader: reads the FRAGMENT_SHADER_STORAGE cell. The
argument is the cell (none when never initialized). The in-loop read uses
a blocking lock that cannot fail in the single-threaded model, so the read
returns exactly the slot content when the slot exists. -/
def get_shader (slot : Option String) : Option String :=
  slot

/-- Rust fn set_fragment_shader, success path: the slot cell before the
call, and the raw text; returns the new slot content and the new value of
the RELOAD_FRAGMENT_SHADER flag (stored true after the write). Both the
init path and the overwrite path store the preamble-wrapped text. -/
def set_fragment_shader (slot : Option String) (new_shader_code : String) :
    Option String × Bool :=
  match slot with
  | some _ => (some (prepare_shader new_shader_code), true)
  | none => (some (prepare_shader new_shader_code), true)

/-- Rust fn update_player_state, success path (payload parsed and lock
acquired): if the PLAYER_STATE_STORAGE cell exists, merge field-wise with
Option::or (new-if-present, else keep-old); otherwise initialize the cell
with the payload wholesale. -/
def update_player_state (cell : Option PlayerState) (state : PlayerState) :
    Option PlayerState :=
  match cell with
  | some player_state =>
      some { mouse := state.mouse.or player_state.mouse
             paused := state.paused.or player_state.paused }
  | none => some state

/-- Rust fn set_paused (the body of play/stop): if the cell exists, set
only the paused field; otherwise initialize with paused set and the rest
defaulted. -/
def set_paused (cell : Option PlayerState) (value : Bool) : Option PlayerState :=
  match cell with
  | some player_state => some { player_state with paused := some value }
  | none => some { PlayerState.default with paused := some value }

/-- Rust fn play: set_paused(false). -/
def play (cell : Option PlayerState) : Option PlayerState :=
  set_paused cell false

/-- Rust fn stop: set_paused(true). -/
def stop (cell : Option PlayerState) : Option PlayerState :=
  set_paused cell true

/-- The mutable variables captured by the update_and_draw closure in run():
the live program (an abstract GL handle id), the resolved uniform-location
table (abstracted as the id of the program the seven get_uniform_location
calls were made against), last_time, frame, the reload_webgl2_context
local flag, and the cached player_state. -/
structure LoopState where
  program : ℕ
  locs : ℕ
  last_time : ℚ
  frame : ℕ
  reload_webgl2_context : Bool
  player_state : PlayerState
deriving Repr, DecidableEq

/-- Everything one invocation of update_and_draw reads from outside the
closure: the timestamp argument (milliseconds), the two global atomics,
the shader-slot cell content, the result of the non-blocking player-state
read (none when the cell is uninitialized or try_lock failed), the GL
outcome of the (at most one) compile_and_link call this frame, and the
host-supplied resolution and date values. -/
structure FrameInput where
  t_ms : ℚ
  lost : Bool
  reloadRequested : Bool
  shaderSlot : Option String
  playerSnapshot : Option PlayerState
  compileResult : Option ℕ
  resolution : ℚ × ℚ × ℚ
  date : ℚ × ℚ × ℚ × ℚ
deriving Repr, DecidableEq

/-- The uniform values a drawing frame writes. mouse is none when the
cached player state has no mouse (the uniform4f call is skipped).
frameRate is none when time_dif = 0 (the f32 division yields infinity). -/
structure UniformWrites where
  time : ℚ
  resolution : ℚ × ℚ × ℚ
  timeDelta : ℚ
  frame : ℕ
  frameRate : Option ℚ
  mouse : Option MouseUniform
  date : ℚ × ℚ × ℚ × ℚ
deriving Repr, DecidableEq

/-- Observable GL effects of one frame invocation. -/
structure FrameEffects where
  deletedProgram : Option ℕ := none
  rebuildAttempt : Option String := none
  errorReports : ℕ := 0
  uniforms : Option UniformWrites := none
  drawCall : Bool := false
deriving Repr, DecidableEq

/-- Result of one frame invocation: the new closure state, the value of
the RELOAD_FRAGMENT_SHADER atomic after the frame, the emitted effects and
the returned continue flag. -/
structure FrameResult where
  state : LoopState
  reloadFlag : Bool
  effects : FrameEffects
  cont : Bool
deriving Repr, DecidableEq

/-- The update_and_draw closure from run(), one invocation. Mirrors the
source block by block: the (LOST_WEBGL2_CONTEXT, reload_webgl2_context)
match, the reload section, the try_lock player-state refresh, the pause
gate, and the uniform writes plus draw. -/
def update_and_draw (s : LoopState) (inp : FrameInput) : FrameResult :=
  let t := inp.t_ms / 1000
  if inp.lost && !s.reload_webgl2_context then
    -- (true, false): free resources, mark restore pending, early return
    { state := { s with reload_webgl2_context := true }
      reloadFlag := inp.reloadRequested
      effects := { deletedProgram := some s.program }
      cont := true }
  else if inp.lost && s.reload_webgl2_context then
    -- (true, true): no-op frame
    { state := s
      reloadFlag := inp.reloadRequested
      effects := {}
      cont := true }
  else
    -- lost = false here; (false, true) forces a reload and clears the flag
    let force_reload_shader := s.reload_webgl2_context
    let s1 := { s with reload_webgl2_context := false }
    let afterReload :=
      if force_reload_shader || inp.reloadRequested then
        let fragment_shader :=
          (get_shader inp.shaderSlot).getD (prepare_shader default_frag_shader_src)
        match inp.compileResult with
        | some new_program =>
            ({ s1 with program := new_program, locs := new_program },
             false,
             ({ rebuildAttempt := some fragment_shader } : FrameEffects))
        | none =>
            (s1, false,
             ({ rebuildAttempt := some fragment_shader, errorReports := 1 } :
               FrameEffects))
      else
        (s1, inp.reloadRequested, ({} : FrameEffects))
    let s2 := afterReload.1
    let reloadFlagOut := afterReload.2.1
    let fx := afterReload.2.2
    let s3 := { s2 with player_state := inp.playerSnapshot.getD s2.player_state }
    if s3.player_state.paused = some true then
      -- Do nothing if paused
      { state := s3, reloadFlag := reloadFlagOut, effects := fx, cont := true }
    else
      let time_dif : ℚ := if s3.last_time = 0 then 0 else t - s3.last_time
      let writes : UniformWrites :=
        { time := t
          resolution := inp.resolution
          timeDelta := time_dif
          frame := s3.frame
          frameRate := if time_dif = 0 then none else some (1 / time_dif)
          mouse := s3.player_state.mouse
          date := inp.date }
      { state := { s3 with last_time := t, frame := s3.frame + 1 }
        reloadFlag := reloadFlagOut
        effects := { fx with uniforms := some writes, drawCall := true }
        cont := true }

/-- A sequence of successful update_player_state calls folded over the
player-state cell. -/
def applyUpdates (cell : Option PlayerState) (calls : List PlayerState) :
    Option PlayerState :=
  calls.foldl update_player_state cell

/-- Specification-side description of the merge law: the value given by
the last element of the sequence that specified the field (none when no
element did). Later calls win. -/
def lastSpecified {α : Type} : List (Option α) → Option α
  | [] => none
  | x :: xs => (lastSpecified xs).or x

theorem applyUpdates_some (init : PlayerState) (calls : List PlayerState) :
    applyUpdates (some init) calls =
      some { mouse := (lastSpecified (calls.map (·.mouse))).or init.mouse
             paused := (lastSpecified (calls.map (·.paused))).or init.paused } := by
  induction calls generalizing init with
  | nil => simp [applyUpdates, lastSpecified]
  | cons c cs ih =>
      simp only [applyUpdates, List.foldl_cons, update_player_state] at *
      rw [ih]
      simp [lastSpecified, Option.or_assoc]

/-- C5: for every sequence of successful update_player_state calls applied
to the player-state cell, the resulting mouse and paused fields each equal
the value given by the last call in the sequence that specified that field
(falling back to the prior value held in the cell, absent for an
uninitialized cell); moreover a single call whose payload omits a field
leaves the existing value of that field unchanged. -/
theorem update_player_state_merge_law (cell : Option PlayerState)
    (calls : List PlayerState) (ps : PlayerState) (m : Option MouseUniform)
    (p : Option Bool) :
    (applyUpdates cell calls =
      if cell = none ∧ calls = [] then none
      else
        some { mouse := (lastSpecified (calls.map (·.mouse))).or
                 ((cell.getD PlayerState.default).mouse)
               paused := (lastSpecified (calls.map (·.paused))).or
                 ((cell.getD PlayerState.default).paused) }) ∧
    update_player_state (some ps) { mouse := none, paused := p } =
      some { mouse := ps.mouse, paused := p.or ps.paused } ∧
    update_player_state (some ps) { mouse := m, paused := none } =
      some { mouse := m.or ps.mouse, paused := ps.paused } := by
  refine ⟨?_, rfl, rfl⟩
  cases cell with
  | some init =>
      simp only [applyUpdates_some, Option.getD_some]
      simp
  | none =>
      cases calls with
      | nil => simp [applyUpdates]
      | cons c cs =>
          have : applyUpdates none (c :: cs) = applyUpdates (some c) cs := rfl
          rw [this, applyUpdates_some]
          simp [lastSpecified, Option.or_none, PlayerState.default]

/-- C9: play() and stop() act on the player-state cell exactly like a
successful update_player_state call whose payload carries only the paused
field: they initialize the cell with only paused set when it was never
initialized, and otherwise set paused while leaving mouse unchanged. -/
theorem play_stop_refine_update_player_state (cell : Option PlayerState)
    (b : Bool) :
    set_paused cell b = update_player_state cell { mouse := none, paused := some b } ∧
    play cell = update_player_state cell { mouse := none, paused := some false } ∧
    stop cell = update_player_state cell { mouse := none, paused := some true } := by
  refine ⟨?_, ?_, ?_⟩ <;> cases cell <;>
    rfl

/-- A running loop state whose previous drawn frame was at t = 5 s: the
live program is 1, its locations resolved against it, three frames drawn,
no restore pending, empty cached player state. -/
def c1_state : LoopState :=
  { program := 1, locs := 1, last_time := 5, frame := 3,
    reload_webgl2_context := false, player_state := {} }

/-- A frame at t = 7000 ms arriving after a set_fragment_shader call: the
reload flag is set, the slot holds the new source, and compile_and_link
succeeds, producing program 2. -/
def c1_input : FrameInput :=
  { t_ms := 7000, lost := false, reloadRequested := true,
    shaderSlot := some "user-src", playerSnapshot := none,
    compileResult := some 2, resolution := (800, 600, 1),
    date := (2026, 9, 12, 100) }

/-- C1 counterexample: a frame that performs a successful program rebuild
(the new program 2 is adopted) nevertheless writes time_delta = 2 ≠ 0,
because the reload path never resets last_time; the sentinel is not
re-armed by a rebuild. -/
theorem c1_reload_does_not_reset_sentinel :
    (update_and_draw c1_state c1_input).effects.rebuildAttempt = some "user-src" ∧
    (update_and_draw c1_state c1_input).state.program = 2 ∧
    (update_and_draw c1_state c1_input).effects.uniforms =
      some { time := 7, resolution := (800, 600, 1), timeDelta := 2, frame := 3,
             frameRate := some (1/2), mouse := none, date := (2026, 9, 12, 100) } ∧
    (update_and_draw c1_state c1_input).state.last_time = 7 := by
  norm_num [update_and_draw, c1_state, c1_input, get_shader]
  rw [if_neg (show ((none : Option Bool) = some true) -> False by decide)]
  norm_num

/-- C1 amended: a successful program rebuild leaves last_time untouched,
so the frame immediately after the rebuild writes
time_delta = t - last_time exactly as any other frame would; time_delta is
0 only when last_time still holds the startup sentinel 0 (set at loop
start), not because of the rebuild. -/
theorem c1_amended_rebuild_keeps_last_time (s : LoopState) (inp : FrameInput)
    (p : ℕ) (hlost : inp.lost = false)
    (hreq : s.reload_webgl2_context = true ∨ inp.reloadRequested = true)
    (hok : inp.compileResult = some p)
    (hp : (inp.playerSnapshot.getD s.player_state).paused ≠ some true) :
    (update_and_draw s inp).state.program = p ∧
    ∃ w, (update_and_draw s inp).effects.uniforms = some w ∧
      w.timeDelta = (if s.last_time = 0 then 0 else inp.t_ms / 1000 - s.last_time) := by
  have hcond : (s.reload_webgl2_context || inp.reloadRequested) = true := by
    rcases hreq with h | h <;> simp [h]
  simp only [update_and_draw, hlost, hok, hcond, Bool.false_and, Bool.if_false_left,
    Bool.and_self, if_false, ite_true, ite_false, Bool.false_eq_true, if_true]
  rw [if_neg hp]
  simp

/-- Witness for the amended C1 theorem at the concrete reload frame. -/
theorem c1_amended_witness :
    (update_and_draw c1_state c1_input).state.program = 2 ∧
    ∃ w, (update_and_draw c1_state c1_input).effects.uniforms = some w ∧
      w.timeDelta =
        (if c1_state.last_time = 0 then 0 else c1_input.t_ms / 1000 - c1_state.last_time) :=
  c1_amended_rebuild_keeps_last_time c1_state c1_input 2 rfl (Or.inr rfl) rfl
    (by decide)

/-- A loop state with a destroyed program and restore pending
(reload_webgl2_context = true), as left behind by a device-loss frame. -/
def c2_pending_state : LoopState :=
  { c1_state with reload_webgl2_context := true }

/-- A frame arriving while the device-lost flag is raised and no external
reload was requested. -/
def c2_lost_input : FrameInput :=
  { c1_input with lost := true, reloadRequested := false }

/-- C2: the per-frame callback implements the device-loss state machine:
on the frame where the flag is first observed true it deletes the live
program, emits no other effect and returns true; on every further frame
with the flag still true it is a pure no-op returning true; on the first
frame with the flag false again it performs exactly one forced rebuild
attempt, clears the restore-pending state, and (when not paused) resumes
uniform writes and the draw call. -/
theorem c2_device_loss_state_machine (s : LoopState) (inp : FrameInput) :
    (inp.lost = true → s.reload_webgl2_context = false →
      update_and_draw s inp =
        { state := { s with reload_webgl2_context := true }
          reloadFlag := inp.reloadRequested
          effects := { deletedProgram := some s.program }
          cont := true }) ∧
    (inp.lost = true → s.reload_webgl2_context = true →
      update_and_draw s inp =
        { state := s, reloadFlag := inp.reloadRequested, effects := {}, cont := true }) ∧
    (inp.lost = false → s.reload_webgl2_context = true →
      (update_and_draw s inp).effects.rebuildAttempt.isSome = true ∧
      (update_and_draw s inp).state.reload_webgl2_context = false ∧
      (update_and_draw s inp).cont = true ∧
      ((inp.playerSnapshot.getD s.player_state).paused ≠ some true →
        (update_and_draw s inp).effects.drawCall = true ∧
        (update_and_draw s inp).effects.uniforms.isSome = true)) := by
  refine ⟨fun h1 h2 => ?_, fun h1 h2 => ?_, fun h1 h2 => ?_⟩
  · simp [update_and_draw, h1, h2]
  · simp [update_and_draw, h1, h2]
  · by_cases hp : (inp.playerSnapshot.getD s.player_state).paused = some true <;>
      cases hc : inp.compileResult <;>
      simp only [update_and_draw, h1, h2, hc, Bool.false_and, Bool.true_or,
        if_false, if_true, ite_true, ite_false, Bool.false_eq_true] <;>
      [rw [if_pos hp]; rw [if_pos hp]; rw [if_neg hp]; rw [if_neg hp]] <;>
      simp [hp]

/-- Witness for C2: the three phases exercised on concrete frames — first
loss frame, steady loss frame, and the restore frame. -/
theorem c2_device_loss_state_machine_witness :
    (update_and_draw c1_state c2_lost_input =
      { state := { c1_state with reload_webgl2_context := true }
        reloadFlag := c2_lost_input.reloadRequested
        effects := { deletedProgram := some c1_state.program }
        cont := true }) ∧
    (update_and_draw c2_pending_state c2_lost_input =
      { state := c2_pending_state, reloadFlag := c2_lost_input.reloadRequested,
        effects := {}, cont := true }) ∧
    ((update_and_draw c2_pending_state c1_input).effects.rebuildAttempt.isSome = true ∧
     (update_and_draw c2_pending_state c1_input).state.reload_webgl2_context = false ∧
     (update_and_draw c2_pending_state c1_input).cont = true ∧
     ((c1_input.playerSnapshot.getD c2_pending_state.player_state).paused ≠ some true →
       (update_and_draw c2_pending_state c1_input).effects.drawCall = true ∧
       (update_and_draw c2_pending_state c1_input).effects.uniforms.isSome = true)) :=
  ⟨(c2_device_loss_state_machine c1_state c2_lost_input).1 rfl rfl,
   (c2_device_loss_state_machine c2_pending_state c2_lost_input).2.1 rfl rfl,
   (c2_device_loss_state_machine c2_pending_state c1_input).2.2 rfl rfl⟩

/-- A reload-requested frame whose compile_and_link call fails. -/
def c3_fail_input : FrameInput :=
  { c1_input with compileResult := none }

/-- A later frame with the reload flag already cleared and nothing forced;
compile would fail if it were attempted, but it is not attempted. -/
def c3_quiet_input : FrameInput :=
  { c1_input with compileResult := none, reloadRequested := false }

/-- C3: when a reload attempt fails to compile or link, the live program
and its uniform-location table are left untouched and the frame still
draws (when unpaused), exactly one error report is emitted for the failed
attempt, and the reload-requested flag comes out cleared; a following
frame with the flag cleared makes no attempt and reports nothing. -/
theorem c3_failed_reload_keeps_program (s : LoopState) (inp : FrameInput)
    (hlost : inp.lost = false) (hfail : inp.compileResult = none) :
    (s.reload_webgl2_context = true ∨ inp.reloadRequested = true →
      (update_and_draw s inp).state.program = s.program ∧
      (update_and_draw s inp).state.locs = s.locs ∧
      (update_and_draw s inp).effects.errorReports = 1 ∧
      (update_and_draw s inp).effects.rebuildAttempt.isSome = true ∧
      (update_and_draw s inp).reloadFlag = false ∧
      ((inp.playerSnapshot.getD s.player_state).paused ≠ some true →
        (update_and_draw s inp).effects.drawCall = true)) ∧
    (s.reload_webgl2_context = false → inp.reloadRequested = false →
      (update_and_draw s inp).effects.errorReports = 0 ∧
      (update_and_draw s inp).effects.rebuildAttempt = none) := by
  refine ⟨fun hreq => ?_, fun h1 h2 => ?_⟩
  · have hcond : (s.reload_webgl2_context || inp.reloadRequested) = true := by
      rcases hreq with h | h <;> simp [h]
    by_cases hp : (inp.playerSnapshot.getD s.player_state).paused = some true <;>
      simp only [update_and_draw, hlost, hfail, hcond, Bool.false_and,
        if_false, if_true, ite_true, ite_false, Bool.false_eq_true] <;>
      [rw [if_pos hp]; rw [if_neg hp]] <;> simp [hp]
  · by_cases hp : (inp.playerSnapshot.getD s.player_state).paused = some true <;>
      simp only [update_and_draw, hlost, h1, h2, Bool.false_and, Bool.or_self,
        if_false, if_true, ite_true, ite_false, Bool.false_eq_true] <;>
      [rw [if_pos hp]; rw [if_neg hp]] <;> simp [hp]

/-- Witness for C3: the failing reload frame and the quiet frame after it,
both concrete. -/
theorem c3_failed_reload_keeps_program_witness :
    ((update_and_draw c1_state c3_fail_input).state.program = c1_state.program ∧
     (update_and_draw c1_state c3_fail_input).state.locs = c1_state.locs ∧
     (update_and_draw c1_state c3_fail_input).effects.errorReports = 1 ∧
     (update_and_draw c1_state c3_fail_input).effects.rebuildAttempt.isSome = true ∧
     (update_and_draw c1_state c3_fail_input).reloadFlag = false ∧
     ((c3_fail_input.playerSnapshot.getD c1_state.player_state).paused ≠ some true →
       (update_and_draw c1_state c3_fail_input).effects.drawCall = true)) ∧
    ((update_and_draw c1_state c3_quiet_input).effects.errorReports = 0 ∧
     (update_and_draw c1_state c3_quiet_input).effects.rebuildAttempt = none) :=
  ⟨(c3_failed_reload_keeps_program c1_state c3_fail_input rfl rfl).1 (Or.inr rfl),
   (c3_failed_reload_keeps_program c1_state c3_quiet_input rfl rfl).2 rfl rfl⟩

/-- C4: whenever the cached player state (after the snapshot refresh of
this frame) has paused = some true, the frame writes no uniforms, issues no
draw call, leaves last_time and frame unchanged, and returns true; and on
any unpaused frame the time_delta written is computed against the
last_time value carried over unchanged — pausing never re-arms the
sentinel. -/
theorem c4_pause_gate (s : LoopState) (inp : FrameInput) :
    ((inp.playerSnapshot.getD s.player_state).paused = some true →
      (update_and_draw s inp).effects.uniforms = none ∧
      (update_and_draw s inp).effects.drawCall = false ∧
      (update_and_draw s inp).state.last_time = s.last_time ∧
      (update_and_draw s inp).state.frame = s.frame ∧
      (update_and_draw s inp).cont = true) ∧
    (inp.lost = false →
      (inp.playerSnapshot.getD s.player_state).paused ≠ some true →
      ∃ w, (update_and_draw s inp).effects.uniforms = some w ∧
        w.timeDelta = (if s.last_time = 0 then 0 else inp.t_ms / 1000 - s.last_time)) := by
  constructor
  · intro hp
    cases hl : inp.lost <;> cases hr : s.reload_webgl2_context <;>
      cases hc : inp.compileResult <;> cases hq : inp.reloadRequested <;>
      simp only [update_and_draw, hl, hr, hc, hq, Bool.false_and, Bool.true_and,
        Bool.and_true, Bool.and_false, Bool.not_false, Bool.not_true,
        Bool.or_self, Bool.true_or, Bool.or_true, Bool.false_or, Bool.or_false,
        if_false, if_true, ite_true, ite_false, Bool.false_eq_true,
        Bool.true_eq_false] <;>
      first
      | (rw [if_pos hp]; simp)
      | simp
  · intro hl hp
    cases hr : s.reload_webgl2_context <;> cases hc : inp.compileResult <;>
      cases hq : inp.reloadRequested <;>
      simp only [update_and_draw, hl, hr, hc, hq, Bool.false_and, Bool.true_and,
        Bool.and_true, Bool.and_false, Bool.not_false, Bool.not_true,
        Bool.or_self, Bool.true_or, Bool.or_true, Bool.false_or, Bool.or_false,
        if_false, if_true, ite_true, ite_false, Bool.false_eq_true,
        Bool.true_eq_false] <;>
      (rw [if_neg hp]; simp)

/-- A frame arriving while the cached player state is paused. -/
def c4_paused_input : FrameInput :=
  { c1_input with
    reloadRequested := false
    playerSnapshot := some { mouse := none, paused := some true } }

/-- Witness for C4: a concrete paused frame freezes everything, and the
concrete unpaused reload frame computes time_delta from the carried-over
last_time. -/
theorem c4_pause_gate_witness :
    ((update_and_draw c1_state c4_paused_input).effects.uniforms = none ∧
     (update_and_draw c1_state c4_paused_input).effects.drawCall = false ∧
     (update_and_draw c1_state c4_paused_input).state.last_time = c1_state.last_time ∧
     (update_and_draw c1_state c4_paused_input).state.frame = c1_state.frame ∧
     (update_and_draw c1_state c4_paused_input).cont = true) ∧
    (∃ w, (update_and_draw c1_state c1_input).effects.uniforms = some w ∧
      w.timeDelta =
        (if c1_state.last_time = 0 then 0 else c1_input.t_ms / 1000 - c1_state.last_time)) :=
  ⟨(c4_pause_gate c1_state c4_paused_input).1 (by decide),
   (c4_pause_gate c1_state c1_input).2 rfl (by decide)⟩

/-- A reload-requested frame with the shader slot never initialized. -/
def c6_noslot_input : FrameInput :=
  { c1_input with shaderSlot := none }

/-- C6: whenever a reload is attempted (forced or flag-requested), the
fragment source handed to compile_and_link is the latest shader-slot
content, and the preamble-wrapped built-in default text is used only when
the slot was never initialized. -/
theorem c6_reload_uses_latest_slot (s : LoopState) (inp : FrameInput)
    (hlost : inp.lost = false)
    (hreq : s.reload_webgl2_context = true ∨ inp.reloadRequested = true) :
    (∀ src, inp.shaderSlot = some src →
      (update_and_draw s inp).effects.rebuildAttempt = some src) ∧
    (inp.shaderSlot = none →
      (update_and_draw s inp).effects.rebuildAttempt =
        some (prepare_shader default_frag_shader_src)) := by
  have hcond : (s.reload_webgl2_context || inp.reloadRequested) = true := by
    rcases hreq with h | h <;> simp [h]
  constructor
  · intro src hslot
    by_cases hp : (inp.playerSnapshot.getD s.player_state).paused = some true <;>
      cases hc : inp.compileResult <;>
      simp only [update_and_draw, hlost, hcond, hc, Bool.false_and,
        if_false, if_true, ite_true, ite_false, Bool.false_eq_true] <;>
      [rw [if_pos hp]; rw [if_pos hp]; rw [if_neg hp]; rw [if_neg hp]] <;>
      simp [get_shader, hslot]
  · intro hslot
    by_cases hp : (inp.playerSnapshot.getD s.player_state).paused = some true <;>
      cases hc : inp.compileResult <;>
      simp only [update_and_draw, hlost, hcond, hc, Bool.false_and,
        if_false, if_true, ite_true, ite_false, Bool.false_eq_true] <;>
      [rw [if_pos hp]; rw [if_pos hp]; rw [if_neg hp]; rw [if_neg hp]] <;>
      simp [get_shader, hslot]

/-- Witness for C6: the initialized slot is compiled as-is; the never
initialized slot falls back to the wrapped default text. -/
theorem c6_reload_uses_latest_slot_witness :
    (update_and_draw c1_state c1_input).effects.rebuildAttempt = some "user-src" ∧
    (update_and_draw c1_state c6_noslot_input).effects.rebuildAttempt =
      some (prepare_shader default_frag_shader_src) :=
  ⟨(c6_reload_uses_latest_slot c1_state c1_input rfl (Or.inr rfl)).1 "user-src" rfl,
   (c6_reload_uses_latest_slot c1_state c6_noslot_input rfl (Or.inr rfl)).2 rfl⟩

/-- C7: on a drawing frame the time_delta written is 0 exactly when
last_time holds the sentinel 0 and t - last_time otherwise; the frame_rate
written is 1 / time_delta, hence the undefined value (none) whenever the
delta is 0 — in particular on a sentinel frame; after the writes the state
carries last_time = t and frame incremented by one, and the frame uniform
was written with the pre-increment value. -/
theorem c7_clock_uniforms (s : LoopState) (inp : FrameInput)
    (hlost : inp.lost = false)
    (hp : (inp.playerSnapshot.getD s.player_state).paused ≠ some true) :
    ∃ w, (update_and_draw s inp).effects.uniforms = some w ∧
      w.time = inp.t_ms / 1000 ∧
      w.timeDelta = (if s.last_time = 0 then 0 else inp.t_ms / 1000 - s.last_time) ∧
      w.frameRate = (if w.timeDelta = 0 then none else some (1 / w.timeDelta)) ∧
      (s.last_time = 0 → w.frameRate = none) ∧
      w.frame = s.frame ∧
      (update_and_draw s inp).state.last_time = inp.t_ms / 1000 ∧
      (update_and_draw s inp).state.frame = s.frame + 1 := by
  cases hr : s.reload_webgl2_context <;> cases hc : inp.compileResult <;>
    cases hq : inp.reloadRequested <;>
    simp only [update_and_draw, hlost, hr, hc, hq, Bool.false_and, Bool.true_and,
      Bool.and_true, Bool.and_false, Bool.or_self, Bool.true_or, Bool.or_true,
      Bool.false_or, Bool.or_false, if_false, if_true, ite_true, ite_false,
      Bool.false_eq_true, Bool.true_eq_false] <;>
    (rw [if_neg hp]) <;>
    refine ⟨_, rfl, by simp, by simp, by simp, fun h => by simp [h], by simp,
      by simp, by simp⟩

/-- Witness for C7 at the concrete reload frame (non-sentinel last_time). -/
theorem c7_clock_uniforms_witness :
    ∃ w, (update_and_draw c1_state c1_input).effects.uniforms = some w ∧
      w.time = c1_input.t_ms / 1000 ∧
      w.timeDelta =
        (if c1_state.last_time = 0 then 0 else c1_input.t_ms / 1000 - c1_state.last_time) ∧
      w.frameRate = (if w.timeDelta = 0 then none else some (1 / w.timeDelta)) ∧
      (c1_state.last_time = 0 → w.frameRate = none) ∧
      w.frame = c1_state.frame ∧
      (update_and_draw c1_state c1_input).state.last_time = c1_input.t_ms / 1000 ∧
      (update_and_draw c1_state c1_input).state.frame = c1_state.frame + 1 :=
  c7_clock_uniforms c1_state c1_input rfl (by decide)

/-- C8: the per-frame player-state read is non-blocking: when the snapshot
read yields nothing (cell uninitialized or try_lock failed) the frame
keeps and uses the previously cached player state and still completes —
returning true and, when not paused, writing uniforms and drawing; the
cache is replaced exactly when a snapshot was successfully read. -/
theorem c8_nonblocking_snapshot (s : LoopState) (inp : FrameInput)
    (hlost : inp.lost = false) :
    (inp.playerSnapshot = none →
      (update_and_draw s inp).state.player_state = s.player_state) ∧
    (∀ ps, inp.playerSnapshot = some ps →
      (update_and_draw s inp).state.player_state = ps) ∧
    (update_and_draw s inp).cont = true ∧
    ((inp.playerSnapshot.getD s.player_state).paused ≠ some true →
      (update_and_draw s inp).effects.drawCall = true ∧
      (update_and_draw s inp).effects.uniforms.isSome = true) := by
  refine ⟨fun hsnap => ?_, fun ps hsnap => ?_, ?_, fun hp => ?_⟩ <;>
    cases hr : s.reload_webgl2_context <;> cases hc : inp.compileResult <;>
    cases hq : inp.reloadRequested <;>
    simp only [update_and_draw, hlost, hr, hc, hq, Bool.false_and,
      Bool.true_and, Bool.and_true, Bool.and_false, Bool.or_self,
      Bool.true_or, Bool.or_true, Bool.false_or, Bool.or_false, if_false,
      if_true, ite_true, ite_false, Bool.false_eq_true,
      Bool.true_eq_false] <;>
    split <;> simp_all

/-- A not-lost frame whose snapshot read succeeds with a paused state. -/
def c8_snapshot_input : FrameInput := c4_paused_input

/-- Witness for C8: a concrete frame with a failed snapshot read keeps the
cache and draws; a concrete frame with a successful read adopts it. -/
theorem c8_nonblocking_snapshot_witness :
    ((update_and_draw c1_state c1_input).state.player_state = c1_state.player_state ∧
     (update_and_draw c1_state c1_input).cont = true ∧
     (update_and_draw c1_state c1_input).effects.drawCall = true ∧
     (update_and_draw c1_state c1_input).effects.uniforms.isSome = true) ∧
    (update_and_draw c1_state c8_snapshot_input).state.player_state =
      { mouse := none, paused := some true } :=
  ⟨⟨(c8_nonblocking_snapshot c1_state c1_input rfl).1 rfl,
    (c8_nonblocking_snapshot c1_state c1_input rfl).2.2.1,
    ((c8_nonblocking_snapshot c1_state c1_input rfl).2.2.2 (by decide)).1,
    ((c8_nonblocking_snapshot c1_state c1_input rfl).2.2.2 (by decide)).2⟩,
   (c8_nonblocking_snapshot c1_state c8_snapshot_input rfl).2.1
     { mouse := none, paused := some true } (by decide)⟩

/-- A frame arriving during device loss with the reload flag raised. -/
def c10_lost_request_input : FrameInput :=
  { c1_input with lost := true }

/-- C10: while the device-lost flag is set, a frame returns before the
reload-handling branch, so the reload-requested flag is neither acted on
nor cleared (no compile attempt is made and the flag passes through
unchanged); on the first frame after restore the pending request is
serviced together with the forced rebuild — the latest slot content is
compiled and the flag comes out cleared. -/
theorem c10_reload_pending_during_loss (s : LoopState) (inp : FrameInput) :
    (inp.lost = true →
      (update_and_draw s inp).reloadFlag = inp.reloadRequested ∧
      (update_and_draw s inp).effects.rebuildAttempt = none) ∧
    (inp.lost = false → s.reload_webgl2_context = true →
      (update_and_draw s inp).reloadFlag = false ∧
      (update_and_draw s inp).effects.rebuildAttempt =
        some ((get_shader inp.shaderSlot).getD (prepare_shader default_frag_shader_src))) := by
  constructor
  · intro hl
    cases hr : s.reload_webgl2_context <;> simp [update_and_draw, hl, hr]
  · intro hl hr
    by_cases hp : (inp.playerSnapshot.getD s.player_state).paused = some true <;>
      cases hc : inp.compileResult <;>
      simp only [update_and_draw, hl, hr, hc, Bool.false_and, Bool.true_or,
        if_false, if_true, ite_true, ite_false, Bool.false_eq_true] <;>
      [rw [if_pos hp]; rw [if_pos hp]; rw [if_neg hp]; rw [if_neg hp]] <;>
      simp

/-- Witness for C10: during loss the raised flag survives the frame
untouched; the concrete restore frame clears it and compiles the pending
slot content. -/
theorem c10_reload_pending_during_loss_witness :
    ((update_and_draw c1_state c10_lost_request_input).reloadFlag =
       c10_lost_request_input.reloadRequested ∧
     (update_and_draw c1_state c10_lost_request_input).effects.rebuildAttempt = none) ∧
    ((update_and_draw c2_pending_state c1_input).reloadFlag = false ∧
     (update_and_draw c2_pending_state c1_input).effects.rebuildAttempt =
       some ((get_shader c1_input.shaderSlot).getD (prepare_shader default_frag_shader_src))) :=
  ⟨(c10_reload_pending_during_loss c1_state c10_lost_request_input).1 rfl,
   (c10_reload_pending_during_loss c2_pending_state c1_input).2 rfl rfl⟩
